import Mathlib

/-!
Verification development for the K-1 document-intelligence validation core.

The definitions below are a shallow embedding of the validation logic of the
repository: the deterministic single-record rule catalog and its runner
`validate_k1`, the report type `K1ValidationReport` with its recomputed counts,
the combiner `compute_overall_status` of `K1CombinedValidation`, the
cross-partner runner `validate_partnership`, the multi-year continuity runner
`validate_year_over_year` (all from `docs/validation/05_validation_design.md`),
the CAP-006 partner-type/self-employment rule (from
`docs/validation/03_capital_account_rules.md`), and the dashboard helper
`filterCrossPartnerForReport` (from the frontend `App.jsx`).

Python/JS floats are modelled as exact rationals (`ℚ`); `None`/absent fields as
`Option`; Python strings as Lean `String` with hand-rolled ASCII lower/trim
helpers so that everything evaluates inside the kernel.
-/

/-- Lowercase an ASCII letter; other characters unchanged (models Python
`str.lower` / the ASCII fragment actually used by the rules). -/
def lowerChar (c : Char) : Char :=
  if 65 ≤ c.toNat ∧ c.toNat ≤ 90 then Char.ofNat (c.toNat + 32) else c

/-- Lowercase a string characterwise. -/
def strLower (s : String) : String := ⟨s.data.map lowerChar⟩

/-- Whitespace recognizer used by `strTrim` (space, tab, newline, return). -/
def isWsChar (c : Char) : Bool :=
  c == ' ' || c == '\t' || c == '\n' || c == '\r'

/-- Remove leading and trailing whitespace (models Python `str.strip` and
JavaScript `String.prototype.trim` on the ASCII data at hand). -/
def trimList (cs : List Char) : List Char :=
  ((cs.dropWhile isWsChar).reverse.dropWhile isWsChar).reverse

/-- String version of `trimList`. -/
def strTrim (s : String) : String := ⟨trimList s.data⟩

/-- Does `hay` start with `pat`? -/
def leadsWith : List Char → List Char → Bool
  | [], _ => true
  | _ :: _, [] => false
  | p :: ps, h :: hs => p == h && leadsWith ps hs

/-- Does `hay` contain `pat` as a contiguous substring? -/
def hasSub : List Char → List Char → Bool
  | [], pat => leadsWith pat []
  | h :: t, pat => leadsWith pat (h :: t) || hasSub t pat

/-- Substring test on strings (models Python `pat in s`,
JavaScript `s.includes(pat)`). -/
def strContains (s pat : String) : Bool := hasSub s.data pat.data

/-- Python `x or 0.0` on an optional monetary value. -/
def orZero : Option ℚ → ℚ
  | none => 0
  | some v => v

/-- Python truthiness of an optional string (`None` and `""` are falsy). -/
def strTruthy : Option String → Bool
  | none => false
  | some s => !s.data.isEmpty

/-- Sum of the present values of a list of optional monetary fields
(models Python `sum(v for v in [...] if v is not None)` and
`sum(filter(None, [...]))`, which agree on sums). -/
def sumPresent (l : List (Option ℚ)) : ℚ := (l.filterMap id).sum

/-- Decimal digits of a natural number, most significant first
(fuel-recursive so it reduces in the kernel). -/
def natDigitsAux : Nat → Nat → List Char
  | 0, _ => []
  | fuel + 1, n =>
    if n < 10 then [Char.ofNat (48 + n)]
    else natDigitsAux fuel (n / 10) ++ [Char.ofNat (48 + n % 10)]

/-- Decimal rendering of a natural number. -/
def natStr (n : Nat) : String := ⟨natDigitsAux (n + 1) n⟩

/-- Rendering of a rational number used inside check messages: integers print
as plain decimals, other values as `num/den`. -/
def ratStr (q : ℚ) : String :=
  (if q.num < 0 then "-" else "") ++ natStr q.num.natAbs ++
    (if q.den = 1 then "" else "/" ++ natStr q.den)

/-- Exactly four ASCII digits (models `re.match(r"^\d{4}$", s)` of FC-001). -/
def isYear4 (s : String) : Bool :=
  match s.data with
  | [a, b, c, d] => a.isDigit && b.isDigit && c.isDigit && d.isDigit
  | _ => false

/-- Check severity levels (the `Severity` enum of the validation design). -/
inductive Severity
  | critical
  | warning
  | advisory
deriving DecidableEq, Repr

/-- One extracted K-1 record (`K1ExtractedData`): the fields read by the
validation code; every field is independently optional. -/
structure K1ExtractedData where
  tax_year : Option String
  partnership_name : Option String
  partner_type : Option String
  partner_share_percentage : Option ℚ
  ordinary_business_income : Option ℚ
  rental_real_estate_income : Option ℚ
  guaranteed_payments : Option ℚ
  interest_income : Option ℚ
  ordinary_dividends : Option ℚ
  qualified_dividends : Option ℚ
  short_term_capital_gains : Option ℚ
  long_term_capital_gains : Option ℚ
  section_179_deduction : Option ℚ
  self_employment_earnings : Option ℚ
  foreign_taxes_paid : Option ℚ
  distributions : Option ℚ
  qbi_deduction : Option ℚ
  capital_account_beginning : Option ℚ
  capital_account_ending : Option ℚ
deriving DecidableEq, Repr

/-- The record with every field absent. -/
def emptyK1 : K1ExtractedData :=
  ⟨none, none, none, none, none, none, none, none, none, none,
   none, none, none, none, none, none, none, none, none⟩

/-- Result of a single deterministic validation check (`DeterministicCheck`). -/
structure DeterministicCheck where
  rule_id : String
  rule_name : String
  severity : Severity
  passed : Bool
  message : String
  fields_involved : List String
deriving DecidableEq, Repr

/-- Complete deterministic validation report (`K1ValidationReport`). -/
structure K1ValidationReport where
  checks : List DeterministicCheck
  critical_count : Nat
  warning_count : Nat
  advisory_count : Nat
  passed : Bool
deriving DecidableEq, Repr

/-- Predicate: a failing check of the given severity (the comprehension
condition of `compute_counts`). -/
def failsWith (sev : Severity) (c : DeterministicCheck) : Bool :=
  decide (c.severity = sev) && !c.passed

/-- Build a `K1ValidationReport` from its checks, computing the derived counts
and `passed` exactly as the `compute_counts` model validator does. -/
def K1ValidationReport.ofChecks (checks : List DeterministicCheck) :
    K1ValidationReport :=
  let cc := checks.countP (failsWith Severity.critical)
  { checks := checks
    critical_count := cc
    warning_count := checks.countP (failsWith Severity.warning)
    advisory_count := checks.countP (failsWith Severity.advisory)
    passed := cc == 0 }

/-- ARITH-001: qualified dividends cannot exceed ordinary dividends
(`_check_arith_001`). -/
def check_arith_001 (data : K1ExtractedData) : DeterministicCheck :=
  let bad : Bool :=
    match data.qualified_dividends, data.ordinary_dividends with
    | some q, some o => decide (q > o)
    | _, _ => false
  { rule_id := "ARITH-001"
    rule_name := "Qualified dividends <= ordinary dividends"
    severity := Severity.critical
    passed := !bad
    message := if bad then
        "Qualified dividends (" ++ ratStr (orZero data.qualified_dividends) ++
          ") exceed ordinary dividends (" ++
          ratStr (orZero data.ordinary_dividends) ++ ")"
      else ""
    fields_involved := ["qualified_dividends", "ordinary_dividends"] }

/-- ARITH-002: partner share percentage must be > 0 and <= 100
(`_check_arith_002`). -/
def check_arith_002 (data : K1ExtractedData) : DeterministicCheck :=
  let bad : Bool :=
    match data.partner_share_percentage with
    | some p => decide (p ≤ 0 ∨ p > 100)
    | none => false
  { rule_id := "ARITH-002"
    rule_name := "Partner share percentage in valid range"
    severity := Severity.critical
    passed := !bad
    message := if bad then
        "partner_share_percentage (" ++
          ratStr (orZero data.partner_share_percentage) ++
          ") must be > 0 and <= 100"
      else ""
    fields_involved := ["partner_share_percentage"] }

/-- One entry of a non-negative field sweep (shared shape of the ARITH-003 and
FC-021 loop bodies). -/
def mkNonNegCheck (ridStem : String) (field_name : String) (v : Option ℚ) :
    DeterministicCheck :=
  let ok : Bool :=
    match v with
    | none => true
    | some x => decide (x ≥ 0)
  { rule_id := ridStem ++ field_name
    rule_name := field_name ++ " non-negative"
    severity := Severity.critical
    passed := ok
    message := if ok then "" else
      field_name ++ " = " ++ ratStr (orZero v) ++ ", must be >= 0"
    fields_involved := [field_name] }

/-- ARITH-003: non-negative field constraints over six fields
(`_check_arith_003`, loop unrolled in source order). -/
def check_arith_003 (data : K1ExtractedData) : List DeterministicCheck :=
  [mkNonNegCheck "ARITH-003-" "ordinary_dividends" data.ordinary_dividends,
   mkNonNegCheck "ARITH-003-" "qualified_dividends" data.qualified_dividends,
   mkNonNegCheck "ARITH-003-" "guaranteed_payments" data.guaranteed_payments,
   mkNonNegCheck "ARITH-003-" "section_179_deduction" data.section_179_deduction,
   mkNonNegCheck "ARITH-003-" "foreign_taxes_paid" data.foreign_taxes_paid,
   mkNonNegCheck "ARITH-003-" "distributions" data.distributions]

/-- ARITH-005: capital account directional plausibility (`_check_arith_005`). -/
def check_arith_005 (data : K1ExtractedData) : DeterministicCheck :=
  let bad : Bool :=
    match data.capital_account_beginning, data.capital_account_ending with
    | some beg, some en =>
      let known_income := sumPresent
        [data.ordinary_business_income, data.rental_real_estate_income,
         data.guaranteed_payments, data.interest_income,
         data.ordinary_dividends, data.short_term_capital_gains,
         data.long_term_capital_gains]
      let known_distributions := orZero data.distributions
      let actual_change := en - beg
      let estimated_change := known_income - known_distributions
      let unexplained := actual_change - estimated_change
      let magnitude := max (max |beg| |en|) 1
      decide (|unexplained| > magnitude * 2)
    | _, _ => false
  { rule_id := "ARITH-005"
    rule_name := "Capital account directional plausibility"
    severity := Severity.advisory
    passed := !bad
    message := if bad then "Large unexplained capital account change" else ""
    fields_involved :=
      ["capital_account_beginning", "capital_account_ending",
       "ordinary_business_income", "distributions"] }

/-- ARITH-006: general-partner self-employment earnings should approximate
Box 1 + Box 4 within max(15%, 1000) (`_check_arith_006`). -/
def check_arith_006 (data : K1ExtractedData) : DeterministicCheck :=
  let bad : Bool :=
    match data.self_employment_earnings, data.ordinary_business_income with
    | some se, some obi =>
      strTruthy data.partner_type &&
        strContains (strLower (data.partner_type.getD "")) "general" &&
        (let expected_se := obi + orZero data.guaranteed_payments
         decide (|se - expected_se| > max (|expected_se| * (15 / 100)) 1000))
    | _, _ => false
  { rule_id := "ARITH-006"
    rule_name := "General partner SE earnings plausibility"
    severity := Severity.warning
    passed := !bad
    message := if bad then
        "General partner SE earnings differ significantly from Box 1 + Box 4"
      else ""
    fields_involved :=
      ["self_employment_earnings", "ordinary_business_income",
       "guaranteed_payments", "partner_type"] }

/-- ARITH-007: limited-partner self-employment earnings should not exceed
guaranteed payments by more than 100 (`_check_arith_007`). -/
def check_arith_007 (data : K1ExtractedData) : DeterministicCheck :=
  let bad : Bool :=
    match data.self_employment_earnings, data.guaranteed_payments with
    | some se, some gp =>
      strTruthy data.partner_type &&
        strContains (strLower (data.partner_type.getD "")) "limited" &&
        decide (se > gp + 100)
    | _, _ => false
  { rule_id := "ARITH-007"
    rule_name := "Limited partner SE earnings constraint"
    severity := Severity.warning
    passed := !bad
    message := if bad then
        "Limited partner SE earnings exceed guaranteed payments"
      else ""
    fields_involved :=
      ["self_employment_earnings", "guaranteed_payments", "partner_type"] }

/-- ARITH-008: QBI deduction plausibility versus Box 1 - Box 4
(`_check_arith_008`). -/
def check_arith_008 (data : K1ExtractedData) : DeterministicCheck :=
  let bad : Bool :=
    match data.qbi_deduction, data.ordinary_business_income with
    | some qbi, some obi =>
      let estimated_qbi := obi - orZero data.guaranteed_payments
      decide (|qbi - estimated_qbi| > max (|obi| * (25 / 100)) 5000)
    | _, _ => false
  { rule_id := "ARITH-008"
    rule_name := "QBI deduction plausibility"
    severity := Severity.advisory
    passed := !bad
    message := if bad then "QBI differs from estimated Box 1 - Box 4" else ""
    fields_involved :=
      ["qbi_deduction", "ordinary_business_income", "guaranteed_payments"] }

/-- ARITH-009: ordinary dividends must be present when qualified dividends are
reported positive (`_check_arith_009`). -/
def check_arith_009 (data : K1ExtractedData) : DeterministicCheck :=
  let bad : Bool :=
    match data.qualified_dividends, data.ordinary_dividends with
    | some q, none => decide (q > 0)
    | _, _ => false
  { rule_id := "ARITH-009"
    rule_name := "Ordinary dividends present when qualified reported"
    severity := Severity.critical
    passed := !bad
    message := if bad then
        "Qualified dividends reported but ordinary dividends missing"
      else ""
    fields_involved := ["qualified_dividends", "ordinary_dividends"] }

/-- ARITH-010: foreign taxes paid should have income context
(`_check_arith_010`). -/
def check_arith_010 (data : K1ExtractedData) : DeterministicCheck :=
  let bad : Bool :=
    match data.foreign_taxes_paid with
    | some ftp =>
      decide (ftp > 0) &&
        !([data.ordinary_business_income, data.rental_real_estate_income,
           data.guaranteed_payments, data.interest_income,
           data.ordinary_dividends, data.short_term_capital_gains,
           data.long_term_capital_gains].any fun v =>
            match v with
            | some x => decide (x ≠ 0)
            | none => false)
    | none => false
  { rule_id := "ARITH-010"
    rule_name := "Foreign taxes require income context"
    severity := Severity.warning
    passed := !bad
    message := if bad then "Foreign taxes paid but no income in any box" else ""
    fields_involved := ["foreign_taxes_paid"] }

/-- ARITH-011: Section 179 reasonableness relative to ordinary income
(`_check_arith_011`). -/
def check_arith_011 (data : K1ExtractedData) : DeterministicCheck :=
  let bad : Bool :=
    match data.section_179_deduction, data.ordinary_business_income with
    | some s179, some obi => decide (s179 > 0) && decide (obi > 0) &&
        decide (s179 > obi * 5)
    | _, _ => false
  { rule_id := "ARITH-011"
    rule_name := "Section 179 reasonableness"
    severity := Severity.advisory
    passed := !bad
    message := if bad then
        "Section 179 is much larger than ordinary income"
      else ""
    fields_involved := ["section_179_deduction", "ordinary_business_income"] }

/-- The set of accepted `partner_type` strings of FC-004. -/
def validPartnerTypes : List String :=
  ["general partner", "limited partner",
   "llc member-manager", "llc member",
   "general partner or llc member-manager",
   "limited partner or other llc member"]

/-- FC-001, FC-003, FC-004: required-field checks (`_check_fc_001_004`). -/
def check_fc_001_004 (data : K1ExtractedData) : List DeterministicCheck :=
  let tax_year_valid : Bool :=
    match data.tax_year with
    | some s => !s.data.isEmpty && isYear4 s
    | none => false
  let name_valid : Bool :=
    match data.partnership_name with
    | some s => decide ((strTrim s).length > 0)
    | none => false
  let type_valid : Bool :=
    match data.partner_type with
    | some s => validPartnerTypes.contains (strTrim (strLower s))
    | none => false
  [{ rule_id := "FC-001"
     rule_name := "tax_year present and valid"
     severity := Severity.critical
     passed := tax_year_valid
     message := if tax_year_valid then "" else "tax_year is missing or invalid"
     fields_involved := ["tax_year"] },
   { rule_id := "FC-003"
     rule_name := "partnership_name present"
     severity := Severity.critical
     passed := name_valid
     message := if name_valid then "" else "partnership_name is missing or empty"
     fields_involved := ["partnership_name"] },
   { rule_id := "FC-004"
     rule_name := "partner_type present and valid"
     severity := Severity.critical
     passed := type_valid
     message := if type_valid then "" else "partner_type invalid"
     fields_involved := ["partner_type"] }]

/-- FC-010: partner share percentage in [0, 100] (`_check_fc_010`). -/
def check_fc_010 (data : K1ExtractedData) : DeterministicCheck :=
  let bad : Bool :=
    match data.partner_share_percentage with
    | some p => decide (p < 0 ∨ p > 100)
    | none => false
  { rule_id := "FC-010"
    rule_name := "Partner share percentage range"
    severity := Severity.critical
    passed := !bad
    message := if bad then
        "partner_share_percentage (" ++
          ratStr (orZero data.partner_share_percentage) ++ ") outside [0, 100]"
      else ""
    fields_involved := ["partner_share_percentage"] }

/-- FC-021: non-negative field enforcement over seven fields
(`_check_fc_021`, loop unrolled in source order). -/
def check_fc_021 (data : K1ExtractedData) : List DeterministicCheck :=
  [mkNonNegCheck "FC-021-" "guaranteed_payments" data.guaranteed_payments,
   mkNonNegCheck "FC-021-" "interest_income" data.interest_income,
   mkNonNegCheck "FC-021-" "ordinary_dividends" data.ordinary_dividends,
   mkNonNegCheck "FC-021-" "qualified_dividends" data.qualified_dividends,
   mkNonNegCheck "FC-021-" "section_179_deduction" data.section_179_deduction,
   mkNonNegCheck "FC-021-" "foreign_taxes_paid" data.foreign_taxes_paid,
   mkNonNegCheck "FC-021-" "distributions" data.distributions]

/-- The year-indexed Section 179 statutory limit table of FC-031; missing keys
(including the empty string for an absent year) default to 1,250,000. -/
def section179Limit (y : String) : ℚ :=
  if y = "2020" then 1040000
  else if y = "2021" then 1050000
  else if y = "2022" then 1080000
  else if y = "2023" then 1160000
  else if y = "2024" then 1220000
  else if y = "2025" then 1250000
  else 1250000

/-- FC-031: Section 179 statutory limit (`_check_fc_031`). -/
def check_fc_031 (data : K1ExtractedData) : DeterministicCheck :=
  let bad : Bool :=
    match data.section_179_deduction with
    | some s179 =>
      decide (s179 > 0) &&
        decide (s179 > section179Limit (data.tax_year.getD ""))
    | none => false
  { rule_id := "FC-031"
    rule_name := "Section 179 statutory limit"
    severity := Severity.critical
    passed := !bad
    message := if bad then "Section 179 exceeds statutory limit" else ""
    fields_involved := ["section_179_deduction", "tax_year"] }

/-- FC-032: SE earnings versus partner type consistency (`_check_fc_032`). -/
def check_fc_032 (data : K1ExtractedData) : DeterministicCheck :=
  let bad : Bool :=
    match data.self_employment_earnings, data.guaranteed_payments with
    | some se, some gp =>
      strTruthy data.partner_type &&
        strContains (strLower (data.partner_type.getD "")) "limited" &&
        decide (|se| > |gp| * (11 / 10))
    | _, _ => false
  { rule_id := "FC-032"
    rule_name := "SE earnings vs partner type consistency"
    severity := Severity.warning
    passed := !bad
    message := if bad then
        "Limited partner SE earnings significantly exceed guaranteed payments"
      else ""
    fields_involved :=
      ["self_employment_earnings", "guaranteed_payments", "partner_type"] }

/-- One entry of the FC-040 magnitude sweep. -/
def mkMagnitudeCheck (field_name : String) (lo hi : ℚ) (v : Option ℚ) :
    DeterministicCheck :=
  let ok : Bool :=
    match v with
    | none => true
    | some x => decide (lo ≤ x ∧ x ≤ hi)
  { rule_id := "FC-040-" ++ field_name
    rule_name := field_name ++ " magnitude check"
    severity := Severity.advisory
    passed := ok
    message := if ok then "" else field_name ++ " outside typical range"
    fields_involved := [field_name] }

/-- FC-040: magnitude sanity checks for all fifteen monetary fields
(`_check_fc_040`, table unrolled in source order). -/
def check_fc_040 (data : K1ExtractedData) : List DeterministicCheck :=
  [mkMagnitudeCheck "ordinary_business_income" (-50000000) 100000000
     data.ordinary_business_income,
   mkMagnitudeCheck "rental_real_estate_income" (-20000000) 20000000
     data.rental_real_estate_income,
   mkMagnitudeCheck "guaranteed_payments" 0 5000000 data.guaranteed_payments,
   mkMagnitudeCheck "interest_income" 0 10000000 data.interest_income,
   mkMagnitudeCheck "ordinary_dividends" 0 50000000 data.ordinary_dividends,
   mkMagnitudeCheck "qualified_dividends" 0 50000000 data.qualified_dividends,
   mkMagnitudeCheck "short_term_capital_gains" (-50000000) 100000000
     data.short_term_capital_gains,
   mkMagnitudeCheck "long_term_capital_gains" (-50000000) 500000000
     data.long_term_capital_gains,
   mkMagnitudeCheck "section_179_deduction" 0 1500000
     data.section_179_deduction,
   mkMagnitudeCheck "self_employment_earnings" (-10000000) 10000000
     data.self_employment_earnings,
   mkMagnitudeCheck "foreign_taxes_paid" 0 1000000 data.foreign_taxes_paid,
   mkMagnitudeCheck "distributions" 0 100000000 data.distributions,
   mkMagnitudeCheck "qbi_deduction" (-50000000) 100000000 data.qbi_deduction,
   mkMagnitudeCheck "capital_account_beginning" (-50000000) 500000000
     data.capital_account_beginning,
   mkMagnitudeCheck "capital_account_ending" (-50000000) 500000000
     data.capital_account_ending]

/-- CAP-001: capital account reconciliation, soft check (`_check_cap_001`). -/
def check_cap_001 (data : K1ExtractedData) : DeterministicCheck :=
  let bad : Bool :=
    match data.capital_account_beginning, data.capital_account_ending with
    | some beg, some en =>
      let net_income := sumPresent
        [data.ordinary_business_income, data.rental_real_estate_income,
         data.guaranteed_payments, data.interest_income,
         data.ordinary_dividends, data.short_term_capital_gains,
         data.long_term_capital_gains]
      let net_deductions := sumPresent
        [data.section_179_deduction, data.foreign_taxes_paid]
      let distributions_amt := orZero data.distributions
      let expected_ending := beg + net_income - net_deductions - distributions_amt
      let discrepancy := |en - expected_ending|
      decide (discrepancy > max (|en| * (25 / 100)) 10000)
    | _, _ => false
  { rule_id := "CAP-001"
    rule_name := "Capital account reconciliation"
    severity := Severity.warning
    passed := !bad
    message := if bad then "Capital account discrepancy" else ""
    fields_involved :=
      ["capital_account_beginning", "capital_account_ending",
       "ordinary_business_income", "distributions"] }

/-- The deterministic validation runner `validate_k1`: every registered rule,
in source order, collected into a report. -/
def validate_k1 (data : K1ExtractedData) : K1ValidationReport :=
  K1ValidationReport.ofChecks
    ([check_arith_001 data, check_arith_002 data] ++
     check_arith_003 data ++
     [check_arith_005 data, check_arith_006 data, check_arith_007 data,
      check_arith_008 data, check_arith_009 data, check_arith_010 data,
      check_arith_011 data] ++
     check_fc_001_004 data ++
     [check_fc_010 data] ++
     check_fc_021 data ++
     [check_fc_031 data, check_fc_032 data] ++
     check_fc_040 data ++
     [check_cap_001 data])

/-- The slice of the AI validation result (`K1AIValidationResult`) consumed by
the combiner: the externally supplied 0-1 coherence score. -/
structure K1AIValidationResult where
  overall_coherence_score : ℚ
deriving DecidableEq, Repr

/-- The status computation of `K1CombinedValidation.compute_overall_status`:
deterministic criticals, then deterministic warnings or a present coherence
score below 0.5, else passed. -/
def compute_overall_status (det : K1ValidationReport)
    (ai : Option K1AIValidationResult) : String :=
  if !det.passed then "failed"
  else if det.warning_count > 0 then "warnings"
  else if (match ai with
           | some r => decide (r.overall_coherence_score < 1 / 2)
           | none => false) then "warnings"
  else "passed"

/-- Combined deterministic + AI validation result (`K1CombinedValidation`). -/
structure K1CombinedValidation where
  k1_data : K1ExtractedData
  deterministic_report : K1ValidationReport
  ai_report : Option K1AIValidationResult
  overall_status : String
  validated_at : String
deriving DecidableEq, Repr

/-- Construct a `K1CombinedValidation` with the status the model validator
derives. -/
def combineValidation (data : K1ExtractedData) (det : K1ValidationReport)
    (ai : Option K1AIValidationResult) (ts : String) : K1CombinedValidation :=
  { k1_data := data
    deterministic_report := det
    ai_report := ai
    overall_status := compute_overall_status det ai
    validated_at := ts }

/-- Result of a single cross-partner validation check (`CrossPartnerCheck`). -/
structure CrossPartnerCheck where
  rule_id : String
  rule_name : String
  severity : Severity
  passed : Bool
  message : String
  partnership_name : String
  tax_year : String
  partners_involved : List String
deriving DecidableEq, Repr

/-- Cross-partner validation results for one partnership and tax year
(`PartnershipValidationResult`). -/
structure PartnershipValidationResult where
  partnership_name : String
  tax_year : String
  partner_count : Nat
  checks : List CrossPartnerCheck
  critical_count : Nat
  warning_count : Nat
  advisory_count : Nat
  passed : Bool
deriving DecidableEq, Repr

/-- Failing-check predicate for cross-partner checks (the comprehension
condition of `PartnershipValidationResult.compute_counts`). -/
def cpFailsWith (sev : Severity) (c : CrossPartnerCheck) : Bool :=
  decide (c.severity = sev) && !c.passed

/-- Build a `PartnershipValidationResult`, deriving the counts and `passed`
exactly as its `compute_counts` model validator does. -/
def PartnershipValidationResult.ofChecks (pname ty : String)
    (partner_count : Nat) (checks : List CrossPartnerCheck) :
    PartnershipValidationResult :=
  let cc := checks.countP (cpFailsWith Severity.critical)
  { partnership_name := pname
    tax_year := ty
    partner_count := partner_count
    checks := checks
    critical_count := cc
    warning_count := checks.countP (cpFailsWith Severity.warning)
    advisory_count := checks.countP (cpFailsWith Severity.advisory)
    passed := cc == 0 }

/-- The six income fields swept by the CROSS_A3 proportionality loop, paired
with their selectors (the rule-registry style of field iteration). -/
def crossA3IncomeFields :
    List (String × (K1ExtractedData → Option ℚ)) :=
  [("ordinary_business_income", fun k => k.ordinary_business_income),
   ("rental_real_estate_income", fun k => k.rental_real_estate_income),
   ("interest_income", fun k => k.interest_income),
   ("ordinary_dividends", fun k => k.ordinary_dividends),
   ("short_term_capital_gains", fun k => k.short_term_capital_gains),
   ("long_term_capital_gains", fun k => k.long_term_capital_gains)]

/-- The CROSS_A3 body of `validate_partnership` for one income field: flag
partners whose actual share of the group total deviates more than 10% from
their percentage-implied share. -/
def crossA3ChecksFor (k1s : List K1ExtractedData) (pname ty : String)
    (field_name : String) (sel : K1ExtractedData → Option ℚ) :
    List CrossPartnerCheck :=
  let values : List (ℚ × ℚ) := k1s.filterMap fun k =>
    match sel k, k.partner_share_percentage with
    | some v, some p => if p > 0 then some (v, p) else none
    | _, _ => none
  if values.length ≥ 2 then
    let total_field := (values.map Prod.fst).sum
    let total_pct := (values.map Prod.snd).sum
    if total_field ≠ 0 ∧ total_pct > 0 then
      values.filterMap fun vp =>
        let expected_share := vp.2 / total_pct
        let actual_share := vp.1 / total_field
        let deviation := |actual_share - expected_share| / max expected_share (1 / 1000)
        if deviation > 1 / 10 then
          some { rule_id := "CROSS_A3_" ++ field_name
                 rule_name := field_name ++ " proportionality"
                 severity := Severity.warning
                 passed := false
                 message := "Partner allocation deviates from pro-rata share"
                 partnership_name := pname
                 tax_year := ty
                 partners_involved := [] }
        else none
    else []
  else []

/-- Partnership names for the CROSS_A5 consistency check: the distinct truthy
`partnership_name` values of the group (Python builds a `set`; only its size
is consumed). -/
def crossA5Names (k1s : List K1ExtractedData) : List String :=
  (k1s.filterMap fun k =>
    match k.partnership_name with
    | some s => if s.data.isEmpty then none else some s
    | none => none).dedup

/-- The CROSS_A1 check record of `validate_partnership`: critical, passing
iff the percentage total does not exceed 100 + 0.01. -/
def crossA1Check (pname ty : String) (total_pct : ℚ) : CrossPartnerCheck :=
  { rule_id := "CROSS_A1"
    rule_name := "Partner profit percentages sum <= 100%"
    severity := Severity.critical
    passed := decide (total_pct ≤ 100 + 1 / 100)
    message := if total_pct ≤ 10001 / 100 then ""
      else "Partner percentages exceed 100%"
    partnership_name := pname
    tax_year := ty
    partners_involved := [] }

/-- The CROSS_A2 incomplete-percentages record of `validate_partnership`:
advisory and always failing when emitted. -/
def crossA2Check (pname ty : String) : CrossPartnerCheck :=
  { rule_id := "CROSS_A2"
    rule_name := "Partner percentages incomplete"
    severity := Severity.advisory
    passed := false
    message := "Some partners may not be ingested"
    partnership_name := pname
    tax_year := ty
    partners_involved := [] }

/-- The CROSS_A1/CROSS_A2 percentage-sum block of `validate_partnership`:
present when at least one share percentage is present; CROSS_A1 fails when the
sum exceeds 100 + 0.01, CROSS_A2 is appended (advisory, failing) when the sum
is below 99.99. -/
def crossA12Checks (k1s : List K1ExtractedData) (pname ty : String) :
    List CrossPartnerCheck :=
  let percentages := k1s.filterMap fun k => k.partner_share_percentage
  if percentages.isEmpty then []
  else
    let total_pct := percentages.sum
    [crossA1Check pname ty total_pct] ++
      (if total_pct < 9999 / 100 then [crossA2Check pname ty] else [])

/-- The CROSS_A3 proportionality block of `validate_partnership`: runs only
for groups of at least two records, sweeping the six income fields. -/
def crossA3Checks (k1s : List K1ExtractedData) (pname ty : String) :
    List CrossPartnerCheck :=
  if k1s.length ≥ 2 then
    crossA3IncomeFields.flatMap fun fs =>
      crossA3ChecksFor k1s pname ty fs.1 fs.2
  else []

/-- The CROSS_A5 identity-consistency block of `validate_partnership`. -/
def crossA5Check (k1s : List K1ExtractedData) (pname ty : String) :
    List CrossPartnerCheck :=
  if (crossA5Names k1s).length > 1 then
    [{ rule_id := "CROSS_A5"
       rule_name := "Partnership identity consistency"
       severity := Severity.warning
       passed := false
       message := "Inconsistent partnership names"
       partnership_name := pname
       tax_year := ty
       partners_involved := [] }]
  else []

/-- The cross-partner validation runner `validate_partnership`: percentage-sum
checks CROSS_A1/CROSS_A2, proportionality CROSS_A3, and identity consistency
CROSS_A5, in source order. -/
def validate_partnership (k1s : List K1ExtractedData) (pname ty : String) :
    PartnershipValidationResult :=
  PartnershipValidationResult.ofChecks pname ty k1s.length
    (crossA12Checks k1s pname ty ++ crossA3Checks k1s pname ty ++
      crossA5Check k1s pname ty)

/-- The `tax_year` pair label of a multi-year continuity check. -/
def yearPairLabel (current prior : K1ExtractedData) : String :=
  prior.tax_year.getD "" ++ "->" ++ current.tax_year.getD ""

/-- The CROSS_B1 capital-account continuity block of
`validate_year_over_year`: present when both balances are; an exact
inequality comparison of prior ending against current beginning, reporting
the absolute difference on mismatch. -/
def crossB1Checks (current prior : K1ExtractedData) :
    List CrossPartnerCheck :=
  match prior.capital_account_ending, current.capital_account_beginning with
  | some pe, some cb =>
    if pe ≠ cb then
      [{ rule_id := "CROSS_B1"
         rule_name := "Capital account continuity"
         severity := Severity.critical
         passed := false
         message := "Prior year ending (" ++ ratStr pe ++
           ") != current year beginning (" ++ ratStr cb ++
           "), difference: " ++ ratStr |pe - cb|
         partnership_name := ""
         tax_year := yearPairLabel current prior
         partners_involved := [] }]
    else
      [{ rule_id := "CROSS_B1"
         rule_name := "Capital account continuity"
         severity := Severity.critical
         passed := true
         message := ""
         partnership_name := ""
         tax_year := yearPairLabel current prior
         partners_involved := [] }]
  | _, _ => []

/-- The CROSS_B4 partner-type continuity block of `validate_year_over_year`:
a warning when the (lowercased) role changed between consecutive years. -/
def crossB4Checks (current prior : K1ExtractedData) :
    List CrossPartnerCheck :=
  match prior.partner_type, current.partner_type with
  | some pt, some ct =>
    if strLower pt ≠ strLower ct then
      [{ rule_id := "CROSS_B4"
         rule_name := "Partner type continuity"
         severity := Severity.warning
         passed := false
         message := "Partner type changed"
         partnership_name := ""
         tax_year := yearPairLabel current prior
         partners_involved := [] }]
    else []
  | _, _ => []

/-- The multi-year continuity runner `validate_year_over_year`: capital
account continuity CROSS_B1 and partner-type continuity CROSS_B4. -/
def validate_year_over_year (current prior : K1ExtractedData) :
    List CrossPartnerCheck :=
  crossB1Checks current prior ++ crossB4Checks current prior

/-- CAP-006 from `docs/validation/03_capital_account_rules.md`: consistency of
self-employment earnings with the partner type. Corporation partners must have
zero SE earnings (critical); limited and general partners get warning-level
plausibility flags. Returns the flags raised (empty when consistent). -/
def check_cap_006 (data : K1ExtractedData) : List DeterministicCheck :=
  let se := orZero data.self_employment_earnings
  let gp := orZero data.guaranteed_payments
  match data.partner_type with
  | none => []
  | some pt =>
    if !pt.data.isEmpty && strContains (strLower pt) "corporation" then
      if se ≠ 0 then
        [{ rule_id := "CAP-006"
           rule_name := "SE earnings and partner type consistency"
           severity := Severity.critical
           passed := false
           message := "Corporation partner should not have self-employment earnings"
           fields_involved := ["self_employment_earnings", "partner_type"] }]
      else []
    else if !pt.data.isEmpty && strContains (strLower pt) "limited" then
      if se > 0 ∧ |se - gp| > max (|gp| * (1 / 10)) 100 then
        [{ rule_id := "CAP-006"
           rule_name := "SE earnings and partner type consistency"
           severity := Severity.warning
           passed := false
           message := "Limited partner SE earnings significantly differ from guaranteed payments"
           fields_involved := ["self_employment_earnings", "guaranteed_payments", "partner_type"] }]
      else []
    else if !pt.data.isEmpty && strContains (strLower pt) "general" then
      if se > 0 ∧ gp > 0 ∧ se < gp then
        [{ rule_id := "CAP-006"
           rule_name := "SE earnings and partner type consistency"
           severity := Severity.warning
           passed := false
           message := "General partner SE earnings less than guaranteed payments"
           fields_involved := ["self_employment_earnings", "guaranteed_payments", "partner_type"] }]
      else []
    else []

/-- One entry of the dashboard's cross-partner `results` array: the fields
read by `filterCrossPartnerForReport` (severities are JSON strings there). -/
structure CPResult where
  partnership_ein : String
  passed : Bool
  severity : String
deriving DecidableEq, Repr

/-- One entry of the dashboard's `partnerships_validated` array. -/
structure CPPartnership where
  partnership_ein : String
deriving DecidableEq, Repr

/-- The dashboard's cross-partner `summary` object. -/
structure CPSummary where
  total_checks : Nat
  passed : Nat
  failed : Nat
  critical : Nat
  warnings : Nat
  advisory : Nat
deriving DecidableEq, Repr

/-- The dashboard's cross-partner results object (`cpData`). -/
structure CPData where
  summary : CPSummary
  results : List CPResult
  partnerships_validated : List CPPartnership
  year_pairs_checked : Nat
deriving DecidableEq, Repr

/-- The `EIN_RE = /^\d{2}-\d{7}$/` test of the dashboard. -/
def einMatch (s : String) : Bool :=
  match s.data with
  | [a, b, c, d, e, f, g, h, i, j] =>
    a.isDigit && b.isDigit && c == '-' && d.isDigit && e.isDigit &&
      f.isDigit && g.isDigit && h.isDigit && i.isDigit && j.isDigit
  | _ => false

/-- The partnership-EIN extraction of `filterCrossPartnerForReport`: mapping
entries sorted by placeholder key, first trimmed value matching the EIN
pattern. -/
def findEin (mapping : List (String × String)) : Option String :=
  (mapping.mergeSort fun a b => decide (a.1 ≤ b.1)).findSome? fun kv =>
    if einMatch (strTrim kv.2) then some (strTrim kv.2) else none

/-- The dashboard helper `filterCrossPartnerForReport`: restrict the
cross-partner results to the report's partnership (identified by the first
EIN-patterned placeholder value) and recompute the summary. -/
def filterCrossPartnerForReport (cpData : CPData)
    (placeholderMapping : List (String × String)) : CPData :=
  match findEin placeholderMapping with
  | none => cpData
  | some partnershipEin =>
    let filteredResults :=
      cpData.results.filter fun r => r.partnership_ein == partnershipEin
    let filteredPartnerships :=
      cpData.partnerships_validated.filter fun p =>
        p.partnership_ein == partnershipEin
    let passedN := (filteredResults.filter fun r => r.passed).length
    { summary :=
        { total_checks := filteredResults.length
          passed := passedN
          failed := filteredResults.length - passedN
          critical := (filteredResults.filter fun r =>
            !r.passed && r.severity == "critical").length
          warnings := (filteredResults.filter fun r =>
            !r.passed && r.severity == "warning").length
          advisory := (filteredResults.filter fun r =>
            !r.passed && r.severity == "advisory").length }
      results := filteredResults
      partnerships_validated := filteredPartnerships
      year_pairs_checked :=
        if filteredPartnerships.length > 1 then cpData.year_pairs_checked
        else 0 }

/-- A current-year record that passes every deterministic check: all required
strings valid, share percentage 50, beginning capital 318500, all other
monetary fields absent. -/
def currentRec : K1ExtractedData :=
  { emptyK1 with
      tax_year := some "2024"
      partnership_name := some "Acme Partners"
      partner_type := some "limited partner"
      partner_share_percentage := some 50
      capital_account_beginning := some 318500 }

/-- The prior-year record of the same relationship, ending capital 258185. -/
def priorRec : K1ExtractedData :=
  { emptyK1 with
      tax_year := some "2023"
      partnership_name := some "Acme Partners"
      partner_type := some "limited partner"
      capital_account_ending := some 258185 }

/-- A current-year record whose beginning capital 258185 matches `priorRec`'s
ending capital exactly. -/
def currentRecEq : K1ExtractedData :=
  { currentRec with capital_account_beginning := some 258185 }

/-- A current-year record whose beginning capital differs from `priorRec`'s
ending capital by only 1/200 = 0.005, i.e. by less than the 0.01 rounding
scale the design uses elsewhere. -/
def currentRecNear : K1ExtractedData :=
  { currentRec with capital_account_beginning := some (258185 + 1 / 200) }

/-- An otherwise-valid record whose share percentage is exactly zero. -/
def recPZero : K1ExtractedData :=
  { currentRec with partner_share_percentage := some 0 }

/-- A three-member group whose share percentages sum to exactly 100. -/
def groupSum100 : List K1ExtractedData :=
  [{ emptyK1 with partner_share_percentage := some 60 },
   { emptyK1 with partner_share_percentage := some 25 },
   { emptyK1 with partner_share_percentage := some 15 }]

/-- A record typed as a corporation partner with nonzero SE earnings. -/
def corpRec : K1ExtractedData :=
  { emptyK1 with
      partner_type := some "Corporation"
      self_employment_earnings := some 50000 }

/-- A dashboard cross-partner results object with three results across two
partnerships. -/
def cpDataEx : CPData :=
  { summary := ⟨3, 1, 2, 1, 1, 0⟩
    results :=
      [⟨"12-3456789", true, "critical"⟩,
       ⟨"98-7654321", false, "critical"⟩,
       ⟨"12-3456789", false, "warning"⟩]
    partnerships_validated := [⟨"12-3456789"⟩, ⟨"98-7654321"⟩]
    year_pairs_checked := 7 }

/-- The registered rule identifiers of `validate_k1`, in evaluation order. -/
def registeredRuleIds : List String :=
  ["ARITH-001", "ARITH-002",
   "ARITH-003-ordinary_dividends", "ARITH-003-qualified_dividends",
   "ARITH-003-guaranteed_payments", "ARITH-003-section_179_deduction",
   "ARITH-003-foreign_taxes_paid", "ARITH-003-distributions",
   "ARITH-005", "ARITH-006", "ARITH-007", "ARITH-008", "ARITH-009",
   "ARITH-010", "ARITH-011",
   "FC-001", "FC-003", "FC-004", "FC-010",
   "FC-021-guaranteed_payments", "FC-021-interest_income",
   "FC-021-ordinary_dividends", "FC-021-qualified_dividends",
   "FC-021-section_179_deduction", "FC-021-foreign_taxes_paid",
   "FC-021-distributions",
   "FC-031", "FC-032",
   "FC-040-ordinary_business_income", "FC-040-rental_real_estate_income",
   "FC-040-guaranteed_payments", "FC-040-interest_income",
   "FC-040-ordinary_dividends", "FC-040-qualified_dividends",
   "FC-040-short_term_capital_gains", "FC-040-long_term_capital_gains",
   "FC-040-section_179_deduction", "FC-040-self_employment_earnings",
   "FC-040-foreign_taxes_paid", "FC-040-distributions",
   "FC-040-qbi_deduction", "FC-040-capital_account_beginning",
   "FC-040-capital_account_ending",
   "CAP-001"]

/-- The rule identifiers of the presence rules, which evaluate absence itself
(absence is their failure condition, not a not-applicable case). -/
def presenceRuleIds : List String := ["FC-001", "FC-003", "FC-004"]

/-- A record with the three string fields arbitrary and every monetary field
and the share percentage absent. -/
def mkAbsent (ty pn pt : Option String) : K1ExtractedData :=
  { emptyK1 with tax_year := ty, partnership_name := pn, partner_type := pt }

/-- A record with qualified dividends 8000 exceeding ordinary dividends
5000. -/
def recQGtO : K1ExtractedData :=
  { emptyK1 with
      qualified_dividends := some 8000
      ordinary_dividends := some 5000 }

/-- A record reporting positive qualified dividends with ordinary dividends
absent. -/
def recQOnly : K1ExtractedData :=
  { emptyK1 with qualified_dividends := some 3000 }

/-- A record with qualified dividends 7000 within ordinary dividends
10000. -/
def recQOk : K1ExtractedData :=
  { emptyK1 with
      qualified_dividends := some 7000
      ordinary_dividends := some 10000 }

/-! ### Helper lemmas -/

/-- A list starts with itself. -/
theorem leadsWith_self (l : List Char) : leadsWith l l = true := by
  induction l with
  | nil => rfl
  | cons h t ih => simp [leadsWith, ih]

/-- A list contains its own suffix as a substring. -/
theorem hasSub_append_right (a b : List Char) : hasSub (a ++ b) b = true := by
  induction a with
  | nil =>
    cases b with
    | nil => rfl
    | cons h t => simp [hasSub, leadsWith_self]
  | cons x xs ih => simp [hasSub, ih]

/-- A string contains its final append component. -/
theorem strContains_append_right (a b : String) :
    strContains (a ++ b) b = true := by
  show hasSub (a.data ++ b.data) b.data = true
  exact hasSub_append_right a.data b.data

/-- Zero failing checks of a severity is the same as no failing check of that
severity being in the list. -/
theorem countP_failsWith_eq_zero (checks : List DeterministicCheck)
    (sev : Severity) :
    checks.countP (failsWith sev) = 0 ↔
      ¬ ∃ c ∈ checks, c.severity = sev ∧ c.passed = false := by
  rw [List.countP_eq_zero]
  constructor
  · rintro h ⟨c, hc, hsev, hp⟩
    exact h c hc (by simp [failsWith, hsev, hp])
  · intro h c hc hf
    simp only [failsWith, Bool.and_eq_true, decide_eq_true_eq,
      Bool.not_eq_true'] at hf
    exact h ⟨c, hc, hf.1, hf.2⟩

/-! ### C2 -/

/-- C2: for every report built by the deterministic evaluator's report
constructor, `critical_count` (resp. `warning_count`, `advisory_count`) equals
the number of checks with that severity and `passed = false`, and `passed` is
true iff `critical_count` is zero. -/
theorem report_counts_match_failing_checks (checks : List DeterministicCheck) :
    (K1ValidationReport.ofChecks checks).critical_count =
      (checks.filter fun c =>
        decide (c.severity = Severity.critical) && !c.passed).length ∧
    (K1ValidationReport.ofChecks checks).warning_count =
      (checks.filter fun c =>
        decide (c.severity = Severity.warning) && !c.passed).length ∧
    (K1ValidationReport.ofChecks checks).advisory_count =
      (checks.filter fun c =>
        decide (c.severity = Severity.advisory) && !c.passed).length ∧
    ((K1ValidationReport.ofChecks checks).passed = true ↔
      (K1ValidationReport.ofChecks checks).critical_count = 0) := by
  refine ⟨?_, ?_, ?_, ?_⟩ <;>
    simp [K1ValidationReport.ofChecks, failsWith,
      List.countP_eq_length_filter] <;> rfl

/-! ### C9 -/

/-- C9: when the deterministic report has zero critical and zero warning
failures, an absent coherence score yields `overall_status = "passed"`
(absence is never a failure signal), while a present score below 0.5 yields
`"warnings"`. -/
theorem combiner_absent_score_passes (checks : List DeterministicCheck)
    (ai : Option K1AIValidationResult)
    (hcrit : checks.countP (failsWith Severity.critical) = 0)
    (hwarn : checks.countP (failsWith Severity.warning) = 0) :
    (ai = none →
      compute_overall_status (K1ValidationReport.ofChecks checks) ai =
        "passed") ∧
    (∀ r, ai = some r → r.overall_coherence_score < 1 / 2 →
      compute_overall_status (K1ValidationReport.ofChecks checks) ai =
        "warnings") := by
  constructor
  · rintro rfl
    simp [compute_overall_status, K1ValidationReport.ofChecks, hcrit, hwarn]
  · rintro r rfl hlt
    rw [one_div] at hlt
    simp [compute_overall_status, K1ValidationReport.ofChecks, hcrit, hwarn,
      hlt]

/-- Witness for C9 at concrete inputs: the empty check list with an absent
score is `"passed"`; with score 0.4 it is `"warnings"`. -/
theorem combiner_absent_score_passes_witness :
    compute_overall_status (K1ValidationReport.ofChecks []) none = "passed" ∧
    compute_overall_status (K1ValidationReport.ofChecks [])
      (some ⟨2 / 5⟩) = "warnings" :=
  ⟨(combiner_absent_score_passes [] none rfl rfl).1 rfl,
   (combiner_absent_score_passes [] (some ⟨2 / 5⟩) rfl rfl).2 ⟨2 / 5⟩ rfl
     (by norm_num)⟩

/-! ### C1 -/

/-- Counterexample for C1: a record whose own deterministic report is clean is
combined to `overall_status = "passed"` even though a critical-severity
failing CrossEntityCheck (the CROSS_B1 capital-continuity mismatch against
`priorRec`) touches it — the combiner never consults cross-entity checks. -/
theorem combiner_ignores_cross_entity_criticals :
    (∃ c ∈ validate_year_over_year currentRec priorRec,
      c.severity = Severity.critical ∧ c.passed = false) ∧
    (combineValidation currentRec (validate_k1 currentRec) none
      "2024-01-01T00:00:00Z").overall_status = "passed" ∧
    (combineValidation currentRec (validate_k1 currentRec) none
      "2024-01-01T00:00:00Z").overall_status ≠ "failed" := by
  refine ⟨?_, by decide, by decide⟩
  decide

/-- C1 (amended): `overall_status` is computed from the record's deterministic
report and the optional coherence score alone — `"failed"` iff a
critical-severity failing deterministic check exists, else `"warnings"` iff a
warning-severity failing deterministic check exists or a present score is
below 0.5, else `"passed"`. Cross-entity checks play no part. -/
theorem combiner_status_characterization (checks : List DeterministicCheck)
    (ai : Option K1AIValidationResult) :
    (compute_overall_status (K1ValidationReport.ofChecks checks) ai =
        "failed" ↔
      ∃ c ∈ checks, c.severity = Severity.critical ∧ c.passed = false) ∧
    (compute_overall_status (K1ValidationReport.ofChecks checks) ai =
        "warnings" ↔
      ((¬ ∃ c ∈ checks, c.severity = Severity.critical ∧ c.passed = false) ∧
        ((∃ c ∈ checks, c.severity = Severity.warning ∧ c.passed = false) ∨
          (∃ r, ai = some r ∧ r.overall_coherence_score < 1 / 2)))) ∧
    (compute_overall_status (K1ValidationReport.ofChecks checks) ai =
        "passed" ↔
      ((¬ ∃ c ∈ checks, c.severity = Severity.critical ∧ c.passed = false) ∧
        (¬ ∃ c ∈ checks, c.severity = Severity.warning ∧ c.passed = false) ∧
        (∀ r, ai = some r → ¬ r.overall_coherence_score < 1 / 2))) := by
  by_cases hc : checks.countP (failsWith Severity.critical) = 0
  · have hnC := (countP_failsWith_eq_zero checks Severity.critical).mp hc
    by_cases hw : checks.countP (failsWith Severity.warning) = 0
    · have hnW := (countP_failsWith_eq_zero checks Severity.warning).mp hw
      cases ai with
      | none =>
        have hst : compute_overall_status (K1ValidationReport.ofChecks checks)
            none = "passed" := by
          simp [compute_overall_status, K1ValidationReport.ofChecks, hc, hw]
        rw [hst]
        refine ⟨⟨fun h => absurd h (by decide), fun h => absurd h hnC⟩,
          ⟨fun h => absurd h (by decide), fun h => ?_⟩,
          ⟨fun _ => ⟨hnC, hnW, fun r hr => nomatch hr⟩, fun _ => rfl⟩⟩
        rcases h.2 with hW | ⟨r, hr, _⟩
        · exact absurd hW hnW
        · exact nomatch hr
      | some r =>
        by_cases hs : r.overall_coherence_score < 1 / 2
        · have hst : compute_overall_status
              (K1ValidationReport.ofChecks checks) (some r) = "warnings" := by
            rw [one_div] at hs
            simp [compute_overall_status, K1ValidationReport.ofChecks, hc, hw,
              hs]
          rw [hst]
          refine ⟨⟨fun h => absurd h (by decide), fun h => absurd h hnC⟩,
            ⟨fun _ => ⟨hnC, Or.inr ⟨r, rfl, hs⟩⟩, fun _ => rfl⟩,
            ⟨fun h => absurd h (by decide), fun h => absurd hs (h.2.2 r rfl)⟩⟩
        · have hst : compute_overall_status
              (K1ValidationReport.ofChecks checks) (some r) = "passed" := by
            rw [one_div] at hs
            simp [compute_overall_status, K1ValidationReport.ofChecks, hc, hw]
            exact le_of_not_lt hs
          rw [hst]
          refine ⟨⟨fun h => absurd h (by decide), fun h => absurd h hnC⟩,
            ⟨fun h => absurd h (by decide), fun h => ?_⟩,
            ⟨fun _ => ⟨hnC, hnW, fun r' hr => by
              cases hr
              exact hs⟩, fun _ => rfl⟩⟩
          rcases h.2 with hW | ⟨r', hr, hs'⟩
          · exact absurd hW hnW
          · cases hr
            exact absurd hs' hs
    · have hW : ∃ c ∈ checks, c.severity = Severity.warning ∧
          c.passed = false := by
        by_contra h
        exact hw ((countP_failsWith_eq_zero checks Severity.warning).mpr h)
      have hst : compute_overall_status (K1ValidationReport.ofChecks checks)
          ai = "warnings" := by
        simp [compute_overall_status, K1ValidationReport.ofChecks, hc,
          Nat.pos_of_ne_zero hw]
      rw [hst]
      refine ⟨⟨fun h => absurd h (by decide), fun h => absurd h hnC⟩,
        ⟨fun _ => ⟨hnC, Or.inl hW⟩, fun _ => rfl⟩,
        ⟨fun h => absurd h (by decide), fun h => absurd hW h.2.1⟩⟩
  · have hC : ∃ c ∈ checks, c.severity = Severity.critical ∧
        c.passed = false := by
      by_contra h
      exact hc ((countP_failsWith_eq_zero checks Severity.critical).mpr h)
    have hst : compute_overall_status (K1ValidationReport.ofChecks checks)
        ai = "failed" := by
      simp [compute_overall_status, K1ValidationReport.ofChecks, hc]
    rw [hst]
    exact ⟨⟨fun _ => hC, fun _ => rfl⟩,
      ⟨fun h => absurd h (by decide), fun h => absurd hC h.1⟩,
      ⟨fun h => absurd h (by decide), fun h => absurd hC h.1⟩⟩

/-! ### C3 -/

/-- C3: `validate_k1` is total by construction and returns, for every input
record, exactly one check per registered rule — the rule-id sequence of the
report is the same fixed duplicate-free list for every input. Moreover, on a
record whose share percentage and monetary fields are all absent (for any
string fields), every rule other than the three presence rules — whose very
subject is absence — reports `passed = true` (not-applicable semantics). -/
theorem validate_k1_total_coverage :
    (∀ data : K1ExtractedData,
      (validate_k1 data).checks.map (fun c => c.rule_id) = registeredRuleIds) ∧
    registeredRuleIds.Nodup ∧
    (∀ ty pn pt,
      ((validate_k1 (mkAbsent ty pn pt)).checks.filter fun c =>
        !(presenceRuleIds.contains c.rule_id)).all (fun c => c.passed) =
          true) := by
  refine ⟨fun data => rfl, by decide, fun ty pn pt => rfl⟩

/-! ### C4 -/

/-- Every CROSS_B4 block member carries rule id CROSS_B4. -/
theorem mem_crossB4_rule_id (current prior : K1ExtractedData)
    (c : CrossPartnerCheck) (hc : c ∈ crossB4Checks current prior) :
    c.rule_id = "CROSS_B4" := by
  unfold crossB4Checks at hc
  split at hc
  · split at hc
    · rw [List.mem_singleton] at hc
      subst hc
      rfl
    · exact absurd hc (List.not_mem_nil c)
  · exact absurd hc (List.not_mem_nil c)

/-- When both balances are present, the CROSS_B1 block is a single critical
check that passes iff the balances agree exactly, and whose failure message
carries the rendered absolute gap. -/
theorem crossB1Checks_present (current prior : K1ExtractedData) (pe cb : ℚ)
    (hpe : prior.capital_account_ending = some pe)
    (hcb : current.capital_account_beginning = some cb) :
    ∃ x, crossB1Checks current prior = [x] ∧
      x.rule_id = "CROSS_B1" ∧ x.severity = Severity.critical ∧
      (x.passed = true ↔ pe = cb) ∧
      (pe ≠ cb → strContains x.message (ratStr |pe - cb|) = true) := by
  unfold crossB1Checks
  simp only [hpe, hcb]
  split
  · rename_i hne
    exact ⟨_, rfl, rfl, rfl, by simp [hne],
      fun _ => strContains_append_right _ _⟩
  · rename_i hnn
    have heq : pe = cb := not_not.mp hnn
    exact ⟨_, rfl, rfl, rfl, by simp [heq], fun h => absurd heq h⟩

/-- Counterexample for C4: the continuity comparison has no rounding
tolerance. A current beginning balance that differs from the prior ending
balance by only 1/200 = 0.005 — strictly within the 0.01 rounding scale —
is still reported as a critical CROSS_B1 failure. -/
theorem cross_b1_no_rounding_tolerance :
    (∃ c ∈ validate_year_over_year currentRecNear priorRec,
      c.rule_id = "CROSS_B1" ∧ c.severity = Severity.critical ∧
      c.passed = false) ∧
    |(258185 : ℚ) - (258185 + 1 / 200)| < 1 / 100 := by
  constructor
  · obtain ⟨x, hxeq, hid, hsev, hpass, _⟩ :=
      crossB1Checks_present currentRecNear priorRec 258185 (258185 + 1 / 200)
        rfl rfl
    have hne : (258185 : ℚ) ≠ 258185 + 1 / 200 := by norm_num
    have hpassed : x.passed = false := by
      cases hp : x.passed
      · rfl
      · exact absurd (hpass.mp hp) hne
    exact ⟨x, by simp [validate_year_over_year, hxeq], hid, hsev, hpassed⟩
  · have habs : |(258185 : ℚ) - (258185 + 1 / 200)| = 1 / 200 := by
      rw [show (258185 : ℚ) - (258185 + 1 / 200) = -(1 / 200) by ring,
        abs_neg, abs_of_pos (by norm_num)]
    rw [habs]
    norm_num

/-- C4 (amended): whenever both balances are present, `validate_year_over_year`
emits a CROSS_B1 check that passes exactly when the prior ending balance
equals the current beginning balance exactly (zero tolerance); on any mismatch
the check is a critical failure whose message states the exact numeric gap. -/
theorem cross_b1_exact_equality (current prior : K1ExtractedData) (pe cb : ℚ)
    (hpe : prior.capital_account_ending = some pe)
    (hcb : current.capital_account_beginning = some cb) :
    (∃ c ∈ validate_year_over_year current prior, c.rule_id = "CROSS_B1") ∧
    (∀ c ∈ validate_year_over_year current prior, c.rule_id = "CROSS_B1" →
      c.severity = Severity.critical ∧
      (c.passed = true ↔ pe = cb) ∧
      (pe ≠ cb → strContains c.message (ratStr |pe - cb|) = true)) := by
  obtain ⟨x, hxeq, hxid, hxsev, hxp, hxm⟩ :=
    crossB1Checks_present current prior pe cb hpe hcb
  constructor
  · exact ⟨x, by simp [validate_year_over_year, hxeq], hxid⟩
  · intro c hc hcid
    rcases List.mem_append.mp (by simpa [validate_year_over_year] using hc)
      with h1 | h2
    · rw [hxeq] at h1
      simp at h1
      subst h1
      exact ⟨hxsev, hxp, hxm⟩
    · rw [mem_crossB4_rule_id current prior c h2] at hcid
      exact absurd hcid (by decide)

theorem cross_b1_exact_equality_witness :
    (∃ c ∈ validate_year_over_year currentRecEq priorRec,
      c.rule_id = "CROSS_B1" ∧ c.passed = true) ∧
    (∃ c ∈ validate_year_over_year currentRec priorRec,
      c.rule_id = "CROSS_B1" ∧ c.severity = Severity.critical ∧
      c.passed = false ∧ strContains c.message (ratStr 60315) = true) := by
  constructor
  · have h := cross_b1_exact_equality currentRecEq priorRec 258185 258185
      rfl rfl
    obtain ⟨c, hc, hid⟩ := h.1
    exact ⟨c, hc, hid, ((h.2 c hc hid).2.1).mpr rfl⟩
  · have h := cross_b1_exact_equality currentRec priorRec 258185 318500
      rfl rfl
    obtain ⟨c, hc, hid⟩ := h.1
    have hprops := h.2 c hc hid
    have hne : (258185 : ℚ) ≠ 318500 := by norm_num
    have hpassed : c.passed = false := by
      cases hp : c.passed
      · rfl
      · exact absurd (hprops.2.1.mp hp) hne
    have hmsg := hprops.2.2 hne
    have habs : |(258185 : ℚ) - 318500| = 60315 := by norm_num
    rw [habs] at hmsg
    exact ⟨c, hc, hid, hprops.1, hpassed, hmsg⟩

/-! ### C5 -/

/-- Appending to a string of length 9 never yields a string of length 8. -/
theorem strApp_ne_of_len (a b c : String) (h9 : a.data.length = 9)
    (h8 : c.data.length = 8) : a ++ b ≠ c := by
  intro h
  have hd : a.data ++ b.data = c.data := congrArg String.data h
  have hl := congrArg List.length hd
  rw [List.length_append, h9, h8] at hl
  omega

/-- Every CROSS_A3 per-field check carries rule id `CROSS_A3_<field>`. -/
theorem mem_crossA3ChecksFor_rule_id (k1s : List K1ExtractedData)
    (pname ty fn : String) (sel : K1ExtractedData → Option ℚ)
    (c : CrossPartnerCheck) (hc : c ∈ crossA3ChecksFor k1s pname ty fn sel) :
    c.rule_id = "CROSS_A3_" ++ fn := by
  simp only [crossA3ChecksFor] at hc
  split at hc
  · split at hc
    · rw [List.mem_filterMap] at hc
      obtain ⟨vp, _, hvp⟩ := hc
      split at hvp
      · rw [Option.some.injEq] at hvp
        rw [← hvp]
      · exact absurd hvp (by simp)
    · exact absurd hc (List.not_mem_nil c)
  · exact absurd hc (List.not_mem_nil c)

/-- No CROSS_A3 block member carries rule id CROSS_A1 or CROSS_A2. -/
theorem mem_crossA3Checks_rule_id (k1s : List K1ExtractedData)
    (pname ty : String) (c : CrossPartnerCheck)
    (hc : c ∈ crossA3Checks k1s pname ty) :
    c.rule_id ≠ "CROSS_A1" ∧ c.rule_id ≠ "CROSS_A2" := by
  unfold crossA3Checks at hc
  split at hc
  · rw [List.mem_flatMap] at hc
    obtain ⟨fs, _, hcf⟩ := hc
    have hid := mem_crossA3ChecksFor_rule_id k1s pname ty fs.1 fs.2 c hcf
    rw [hid]
    exact ⟨strApp_ne_of_len _ _ _ rfl rfl, strApp_ne_of_len _ _ _ rfl rfl⟩
  · exact absurd hc (List.not_mem_nil c)

/-- Every CROSS_A5 block member carries rule id CROSS_A5. -/
theorem mem_crossA5Check_rule_id (k1s : List K1ExtractedData)
    (pname ty : String) (c : CrossPartnerCheck)
    (hc : c ∈ crossA5Check k1s pname ty) : c.rule_id = "CROSS_A5" := by
  unfold crossA5Check at hc
  split at hc
  · rw [List.mem_singleton] at hc
    subst hc
    rfl
  · exact absurd hc (List.not_mem_nil c)

/-- Membership in the percentage-sum block: only the CROSS_A1 record and,
when the total is below 99.99, the CROSS_A2 record. -/
theorem mem_crossA12Checks (k1s : List K1ExtractedData) (pname ty : String)
    (c : CrossPartnerCheck) (hc : c ∈ crossA12Checks k1s pname ty) :
    c = crossA1Check pname ty
        (k1s.filterMap fun k => k.partner_share_percentage).sum ∨
      ((k1s.filterMap fun k => k.partner_share_percentage).sum < 9999 / 100 ∧
        c = crossA2Check pname ty) := by
  simp only [crossA12Checks] at hc
  split at hc
  · exact absurd hc (List.not_mem_nil c)
  · rcases List.mem_append.mp hc with h1 | h2
    · exact Or.inl (List.mem_singleton.mp h1)
    · right
      revert h2
      split
      · rename_i hlt
        intro h2
        exact ⟨hlt, List.mem_singleton.mp h2⟩
      · intro h2
        exact absurd h2 (List.not_mem_nil c)

/-- When at least one percentage is present, the CROSS_A1 record is in the
percentage-sum block, and the CROSS_A2 record is in it iff the total is below
99.99. -/
theorem crossA12Checks_mem_intro (k1s : List K1ExtractedData)
    (pname ty : String)
    (hne : (k1s.filterMap fun k => k.partner_share_percentage) ≠ []) :
    crossA1Check pname ty
        (k1s.filterMap fun k => k.partner_share_percentage).sum ∈
      crossA12Checks k1s pname ty ∧
    ((k1s.filterMap fun k => k.partner_share_percentage).sum < 9999 / 100 →
      crossA2Check pname ty ∈ crossA12Checks k1s pname ty) := by
  simp only [crossA12Checks]
  split
  · rename_i hemp
    rw [List.isEmpty_iff] at hemp
    exact absurd hemp hne
  · constructor
    · exact List.mem_append_left _ (List.mem_singleton.mpr rfl)
    · intro hlt
      apply List.mem_append_right
      rw [if_pos hlt]
      exact List.mem_singleton.mpr rfl

/-- C5 (percentage-sum checks): for every group with at least one present
share percentage, `validate_partnership` emits the critical CROSS_A1 check,
failing exactly when the percentage total exceeds 100 + 0.01; it emits the
advisory failing CROSS_A2 incomplete flag exactly when the total is below
100 - 0.01; hence a group summing to 100 within ±0.01 gets a passing CROSS_A1
and no CROSS_A2. -/
theorem cross_percentage_sum_checks (k1s : List K1ExtractedData)
    (pname ty : String)
    (hne : (k1s.filterMap fun k => k.partner_share_percentage) ≠ []) :
    (∃ c ∈ (validate_partnership k1s pname ty).checks,
      c.rule_id = "CROSS_A1") ∧
    (∀ c ∈ (validate_partnership k1s pname ty).checks,
      c.rule_id = "CROSS_A1" →
        c.severity = Severity.critical ∧
        (c.passed = false ↔
          (k1s.filterMap fun k => k.partner_share_percentage).sum >
            100 + 1 / 100)) ∧
    ((∃ c ∈ (validate_partnership k1s pname ty).checks,
        c.rule_id = "CROSS_A2") ↔
      (k1s.filterMap fun k => k.partner_share_percentage).sum <
        100 - 1 / 100) ∧
    (∀ c ∈ (validate_partnership k1s pname ty).checks,
      c.rule_id = "CROSS_A2" →
        c.severity = Severity.advisory ∧ c.passed = false) := by
  have hchecks : (validate_partnership k1s pname ty).checks =
      crossA12Checks k1s pname ty ++ crossA3Checks k1s pname ty ++
        crossA5Check k1s pname ty := rfl
  have hmem : ∀ c, c ∈ (validate_partnership k1s pname ty).checks →
      c ∈ crossA12Checks k1s pname ty ∨ c ∈ crossA3Checks k1s pname ty ∨
        c ∈ crossA5Check k1s pname ty := by
    intro c hc
    rw [hchecks] at hc
    rcases List.mem_append.mp hc with h12 | h5
    · rcases List.mem_append.mp h12 with h1 | h3
      · exact Or.inl h1
      · exact Or.inr (Or.inl h3)
    · exact Or.inr (Or.inr h5)
  have hintro := crossA12Checks_mem_intro k1s pname ty hne
  have h100 : (9999 : ℚ) / 100 = 100 - 1 / 100 := by norm_num
  refine ⟨?_, ?_, ?_, ?_⟩
  · refine ⟨crossA1Check pname ty
      (k1s.filterMap fun k => k.partner_share_percentage).sum, ?_, rfl⟩
    rw [hchecks]
    exact List.mem_append_left _ (List.mem_append_left _ hintro.1)
  · intro c hc hid
    rcases hmem c hc with h12 | h3 | h5
    · rcases mem_crossA12Checks k1s pname ty c h12 with h | ⟨_, h⟩
      · subst h
        refine ⟨rfl, ?_⟩
        constructor
        · intro hp
          have hp' : decide
              ((k1s.filterMap fun k => k.partner_share_percentage).sum ≤
                100 + 1 / 100) = false := hp
          exact not_le.mp (of_decide_eq_false hp')
        · intro hgt
          show decide _ = false
          exact decide_eq_false (not_le.mpr hgt)
      · subst h
        have h2 : (crossA2Check pname ty).rule_id = "CROSS_A2" := rfl
        rw [h2] at hid
        exact absurd hid (by decide)
    · exact absurd hid (mem_crossA3Checks_rule_id k1s pname ty c h3).1
    · rw [mem_crossA5Check_rule_id k1s pname ty c h5] at hid
      exact absurd hid (by decide)
  · constructor
    · rintro ⟨c, hc, hid⟩
      rcases hmem c hc with h12 | h3 | h5
      · rcases mem_crossA12Checks k1s pname ty c h12 with h | ⟨hlt, _⟩
        · subst h
          have h1 : (crossA1Check pname ty
              (k1s.filterMap fun k => k.partner_share_percentage).sum).rule_id =
                "CROSS_A1" := rfl
          rw [h1] at hid
          exact absurd hid (by decide)
        · rw [← h100]
          exact hlt
      · exact absurd hid (mem_crossA3Checks_rule_id k1s pname ty c h3).2
      · rw [mem_crossA5Check_rule_id k1s pname ty c h5] at hid
        exact absurd hid (by decide)
    · intro hlt
      refine ⟨crossA2Check pname ty, ?_, rfl⟩
      rw [hchecks]
      exact List.mem_append_left _
        (List.mem_append_left _ (hintro.2 (by rw [h100]; exact hlt)))
  · intro c hc hid
    rcases hmem c hc with h12 | h3 | h5
    · rcases mem_crossA12Checks k1s pname ty c h12 with h | ⟨_, h⟩
      · subst h
        have h1 : (crossA1Check pname ty
            (k1s.filterMap fun k => k.partner_share_percentage).sum).rule_id =
              "CROSS_A1" := rfl
        rw [h1] at hid
        exact absurd hid (by decide)
      · subst h
        exact ⟨rfl, rfl⟩
    · exact absurd hid (mem_crossA3Checks_rule_id k1s pname ty c h3).2
    · rw [mem_crossA5Check_rule_id k1s pname ty c h5] at hid
      exact absurd hid (by decide)

/-- Witness for C5 at the 60/25/15 group (sum exactly 100): CROSS_A1 passes
and no CROSS_A2 flag is emitted. -/
theorem cross_percentage_sum_checks_witness :
    (∃ c ∈ (validate_partnership groupSum100 "P" "2024").checks,
      c.rule_id = "CROSS_A1" ∧ c.passed = true) ∧
    (¬ ∃ c ∈ (validate_partnership groupSum100 "P" "2024").checks,
      c.rule_id = "CROSS_A2") := by
  have h := cross_percentage_sum_checks groupSum100 "P" "2024" (by decide)
  constructor
  · obtain ⟨c, hc, hid⟩ := h.1
    have hp := (h.2.1 c hc hid).2
    have hsum : (groupSum100.filterMap fun k =>
        k.partner_share_percentage).sum = 100 := by
      simp [groupSum100, emptyK1]
      norm_num
    refine ⟨c, hc, hid, ?_⟩
    cases hpc : c.passed
    · exfalso
      have := hp.mp hpc
      rw [hsum] at this
      norm_num at this
    · rfl
  · intro hex
    have := h.2.2.1.mp hex
    have hsum : (groupSum100.filterMap fun k =>
        k.partner_share_percentage).sum = 100 := by
      simp [groupSum100, emptyK1]
      norm_num
    rw [hsum] at this
    norm_num at this

/-! ### C6 -/

/-- C6: with both dividend fields present, ARITH-001 is a critical check
failing exactly when qualified exceeds ordinary; with qualified present and
positive but ordinary absent, ARITH-009 is a critical failure; in all other
cases both subset checks pass. -/
theorem dividends_subset_rules (data : K1ExtractedData) :
    (∀ q o, data.qualified_dividends = some q →
      data.ordinary_dividends = some o →
      (check_arith_001 data).severity = Severity.critical ∧
      ((check_arith_001 data).passed = false ↔ q > o)) ∧
    (∀ q, data.qualified_dividends = some q → q > 0 →
      data.ordinary_dividends = none →
      (check_arith_009 data).severity = Severity.critical ∧
      (check_arith_009 data).passed = false) ∧
    ((∀ q o, data.qualified_dividends = some q →
        data.ordinary_dividends = some o → q ≤ o) →
     (∀ q, data.qualified_dividends = some q →
        data.ordinary_dividends = none → q ≤ 0) →
      (check_arith_001 data).passed = true ∧
      (check_arith_009 data).passed = true) := by
  refine ⟨?_, ?_, ?_⟩
  · intro q o hq ho
    refine ⟨rfl, ?_⟩
    simp [check_arith_001, hq, ho]
  · intro q hq hpos ho
    refine ⟨rfl, ?_⟩
    simp [check_arith_009, hq, ho, hpos]
  · intro h1 h2
    constructor
    · cases hq : data.qualified_dividends with
      | none => simp [check_arith_001, hq]
      | some q =>
        cases ho : data.ordinary_dividends with
        | none => simp [check_arith_001, hq, ho]
        | some o =>
          simp [check_arith_001, hq, ho]
          exact h1 q o hq ho
    · cases hq : data.qualified_dividends with
      | none => simp [check_arith_009, hq]
      | some q =>
        cases ho : data.ordinary_dividends with
        | none =>
          simp [check_arith_009, hq, ho]
          exact h2 q hq ho
        | some o => simp [check_arith_009, hq, ho]

/-- Witness for C6 at concrete records: qualified 8000 over ordinary 5000
fails ARITH-001 critically; qualified 3000 with ordinary absent fails
ARITH-009 critically; qualified 7000 under ordinary 10000 passes both. -/
theorem dividends_subset_rules_witness :
    ((check_arith_001 recQGtO).passed = false ∧
      (check_arith_001 recQGtO).severity = Severity.critical) ∧
    ((check_arith_009 recQOnly).passed = false ∧
      (check_arith_009 recQOnly).severity = Severity.critical) ∧
    ((check_arith_001 recQOk).passed = true ∧
      (check_arith_009 recQOk).passed = true) := by
  refine ⟨?_, ?_, ?_⟩
  · have h := (dividends_subset_rules recQGtO).1 8000 5000 rfl rfl
    exact ⟨h.2.mpr (by norm_num), h.1⟩
  · have h := (dividends_subset_rules recQOnly).2.1 3000 rfl (by norm_num) rfl
    exact ⟨h.2, h.1⟩
  · exact (dividends_subset_rules recQOk).2.2
      (fun q o hq ho => by
        rw [show recQOk.qualified_dividends = some 7000 from rfl,
          Option.some.injEq] at hq
        rw [show recQOk.ordinary_dividends = some 10000 from rfl,
          Option.some.injEq] at ho
        rw [← hq, ← ho]
        norm_num)
      (fun q hq ho => by
        rw [show recQOk.ordinary_dividends = some 10000 from rfl] at ho
        exact absurd ho (by simp))

/-! ### C7 -/

/-- Counterexample for C7: on an otherwise-valid record with share percentage
exactly 0, the range rule ARITH-002 produces a critical failure inside
`validate_k1` — zero is not treated as valid by every range rule. -/
theorem share_percentage_zero_critical :
    recPZero.partner_share_percentage = some 0 ∧
    ∃ c ∈ (validate_k1 recPZero).checks, c.rule_id = "ARITH-002" ∧
      c.severity = Severity.critical ∧ c.passed = false := by
  exact ⟨rfl, by decide⟩

/-- C7 (amended): for a present share percentage p, FC-010 fails (critically)
exactly when p < 0 or p > 100 — treating 0 as valid — while ARITH-002 fails
(critically) exactly when p ≤ 0 or p > 100, so p = 0 draws a critical failure
from ARITH-002 but not from FC-010. -/
theorem share_percentage_range_rules (data : K1ExtractedData) (p : ℚ)
    (hp : data.partner_share_percentage = some p) :
    ((check_arith_002 data).severity = Severity.critical ∧
      ((check_arith_002 data).passed = false ↔ (p ≤ 0 ∨ p > 100))) ∧
    ((check_fc_010 data).severity = Severity.critical ∧
      ((check_fc_010 data).passed = false ↔ (p < 0 ∨ p > 100))) := by
  refine ⟨⟨rfl, ?_⟩, ⟨rfl, ?_⟩⟩
  · simp [check_arith_002, hp]
    rw [or_iff_not_imp_left, not_le]
  · simp [check_fc_010, hp]
    rw [or_iff_not_imp_left, not_lt]

/-- Witness for the amended C7 at p = 0: ARITH-002 fails critically while
FC-010 passes. -/
theorem share_percentage_range_rules_witness :
    (check_arith_002 recPZero).passed = false ∧
    (check_arith_002 recPZero).severity = Severity.critical ∧
    (check_fc_010 recPZero).passed = true := by
  have h := share_percentage_range_rules recPZero 0 rfl
  refine ⟨h.1.2.mpr (Or.inl le_rfl), h.1.1, ?_⟩
  cases hp : (check_fc_010 recPZero).passed
  · exfalso
    rcases h.2.2.mp hp with h0 | h0 <;> norm_num at h0
  · rfl

/-! ### C8 -/

/-- C8: for a record whose role string denotes a corporation (entity-type)
participant, a present nonzero self-employment-earnings value makes CAP-006
emit a critical failing check. -/
theorem cap006_corporation_nonzero_se (data : K1ExtractedData) (pt : String)
    (v : ℚ) (hpt : data.partner_type = some pt)
    (hcorp : strContains (strLower pt) "corporation" = true)
    (hse : data.self_employment_earnings = some v) (hv : v ≠ 0) :
    ∃ c ∈ check_cap_006 data, c.rule_id = "CAP-006" ∧
      c.severity = Severity.critical ∧ c.passed = false := by
  have hne : pt.data.isEmpty = false := by
    cases hd : pt.data with
    | nil =>
      exfalso
      have hc0 : strContains (strLower pt) "corporation" = false := by
        show hasSub (pt.data.map lowerChar) ("corporation").data = false
        rw [hd]
        rfl
      rw [hc0] at hcorp
      exact Bool.noConfusion hcorp
    | cons a l => rfl
  simp only [check_cap_006, hpt, hse, hne, hcorp, orZero, Bool.not_false,
    Bool.and_true, Bool.true_and, if_true]
  rw [if_pos hv]
  exact ⟨_, List.mem_singleton.mpr rfl, rfl, rfl, rfl⟩

/-- Witness for C8: partner type "Corporation" with SE earnings 50000 draws
the critical CAP-006 flag. -/
theorem cap006_corporation_nonzero_se_witness :
    ∃ c ∈ check_cap_006 corpRec, c.rule_id = "CAP-006" ∧
      c.severity = Severity.critical ∧ c.passed = false :=
  cap006_corporation_nonzero_se corpRec "Corporation" 50000 rfl (by decide)
    rfl (by norm_num)

/-! ### C10 -/

/-- C10: the dashboard filter returns its input unchanged when no placeholder
value matches the EIN pattern; otherwise it keeps exactly the results whose
`partnership_ein` equals the first EIN-patterned value (entries ordered by
placeholder key) and recomputes a consistent summary: `total_checks` is the
number of kept results, `passed + failed = total_checks`, and the severity
counters count exactly the kept failing results of each severity. -/
theorem filter_cross_partner_characterization (cp : CPData)
    (mapping : List (String × String)) :
    ((∀ kv ∈ mapping, einMatch (strTrim kv.2) = false) →
      filterCrossPartnerForReport cp mapping = cp) ∧
    (∀ e, findEin mapping = some e →
      (filterCrossPartnerForReport cp mapping).results =
        cp.results.filter (fun r => r.partnership_ein == e) ∧
      (filterCrossPartnerForReport cp mapping).summary.total_checks =
        (filterCrossPartnerForReport cp mapping).results.length ∧
      (filterCrossPartnerForReport cp mapping).summary.passed +
          (filterCrossPartnerForReport cp mapping).summary.failed =
        (filterCrossPartnerForReport cp mapping).summary.total_checks ∧
      (filterCrossPartnerForReport cp mapping).summary.critical =
        ((filterCrossPartnerForReport cp mapping).results.filter fun r =>
          !r.passed && r.severity == "critical").length ∧
      (filterCrossPartnerForReport cp mapping).summary.warnings =
        ((filterCrossPartnerForReport cp mapping).results.filter fun r =>
          !r.passed && r.severity == "warning").length ∧
      (filterCrossPartnerForReport cp mapping).summary.advisory =
        ((filterCrossPartnerForReport cp mapping).results.filter fun r =>
          !r.passed && r.severity == "advisory").length) := by
  constructor
  · intro hnone
    have hfind : findEin mapping = none := by
      unfold findEin
      rw [List.findSome?_eq_none_iff]
      intro kv hkv
      simp [hnone kv (List.mem_mergeSort.mp hkv)]
    unfold filterCrossPartnerForReport
    rw [hfind]
  · intro e he
    simp only [filterCrossPartnerForReport, he]
    refine ⟨trivial, trivial, ?_, trivial, trivial, trivial⟩
    exact Nat.add_sub_cancel' (List.length_filter_le _ _)

/-- Witness for C10: a mapping with no EIN-shaped value leaves the object
unchanged; a mapping whose (trimmed) value is 12-3456789 keeps exactly the
two matching results. -/
theorem filter_cross_partner_witness :
    filterCrossPartnerForReport cpDataEx [("k0", "Acme Partners")] =
      cpDataEx ∧
    (filterCrossPartnerForReport cpDataEx
      [("k1", " 12-3456789 ")]).summary.total_checks = 2 := by
  constructor
  · exact (filter_cross_partner_characterization cpDataEx
      [("k0", "Acme Partners")]).1 (by decide)
  · have hfind : findEin [("k1", " 12-3456789 ")] = some "12-3456789" := by
      unfold findEin
      rw [List.mergeSort_singleton]
      rfl
    have h := (filter_cross_partner_characterization cpDataEx
      [("k1", " 12-3456789 ")]).2 "12-3456789" hfind
    rw [h.2.1, h.1]
    decide

/-- Witness for the amended C1 at a concrete input: the report of the
zero-percentage record contains a critical failure, so the combined status is
"failed". -/
theorem combiner_status_characterization_witness :
    compute_overall_status
      (K1ValidationReport.ofChecks (validate_k1 recPZero).checks) none =
      "failed" :=
  (combiner_status_characterization (validate_k1 recPZero).checks none).1.mpr
    (by decide)

/-- Witness for C2 at a concrete input: the empty check list yields a passing
report. -/
theorem report_counts_match_failing_checks_witness :
    (K1ValidationReport.ofChecks []).passed = true :=
  (report_counts_match_failing_checks []).2.2.2.mpr rfl

/-- Witness for C3 at a concrete input: the all-absent record yields exactly
the registered rule ids. -/
theorem validate_k1_total_coverage_witness :
    (validate_k1 emptyK1).checks.map (fun c => c.rule_id) =
      registeredRuleIds :=
  validate_k1_total_coverage.1 emptyK1
